import Mathlib

/-!
# UpCloud Packer builder: create-server step, templatize step, artifact, builder

A shallow embedding of `builder/upcloud/{artifact,builder,step_create_server,
step_templatize_storage}.go`.

* The cloud API client (`service.Service` of the UpCloud Go SDK) is a record of
  response functions.  Every response may depend on the whole history of requests
  issued so far, so any deterministic, stateful remote behaviour is covered.
* Effects are explicit: a `World` collects the requests sent to the API, the lines
  written to the `packer.Ui` and the lines written to the process log.
* A Go panic (nil dereference, failed type assertion, index out of range) aborts the
  computation: `Exec` yields `none` and keeps the world reached at that point.
* `errgroup.Group` is embedded by the schedule in which every task started with `Go`
  runs to completion before the next statement of the caller.  No task of these files
  observes the group context (it is discarded with `_`), so a failing task never
  interrupts a sibling, and `Wait` returns the first error recorded.
-/

namespace Upcloud

/-! ## SDK data -/

/-- Go `error` values are represented by their message. -/
abbrev Error := String

/-- SDK constant `upcloud.StorageTypeDisk`. -/
def StorageTypeDisk : String := "disk"
/-- SDK constant `upcloud.ServerStateStarted`. -/
def ServerStateStarted : String := "started"
/-- SDK constant `upcloud.ServerStateStopped`. -/
def ServerStateStopped : String := "stopped"
/-- SDK constant `upcloud.ServerStateMaintenance`. -/
def ServerStateMaintenance : String := "maintenance"
/-- SDK constant `upcloud.StorageStateOnline`. -/
def StorageStateOnline : String := "online"
/-- SDK constant `request.PasswordDeliveryNone`. -/
def PasswordDeliveryNone : String := "none"
/-- SDK constant `upcloud.CreateServerStorageDeviceActionClone`. -/
def CreateServerStorageDeviceActionClone : String := "clone"
/-- SDK constant `upcloud.StorageTierMaxIOPS`. -/
def StorageTierMaxIOPS : String := "maxiops"
/-- SDK constant `upcloud.IPAddressAccessPrivate`. -/
def IPAddressAccessPrivate : String := "private"
/-- SDK constant `upcloud.IPAddressAccessPublic`. -/
def IPAddressAccessPublic : String := "public"
/-- SDK constant `upcloud.IPAddressFamilyIPv4`. -/
def IPAddressFamilyIPv4 : String := "IPv4"
/-- SDK constant `upcloud.IPAddressFamilyIPv6`. -/
def IPAddressFamilyIPv6 : String := "IPv6"

/-- The fields of `upcloud.ServerStorageDevice` read by the steps. -/
structure ServerStorageDevice where
  UUID : String
  Title : String
  Type_ : String
  deriving DecidableEq, Repr

/-- The fields of `upcloud.ServerDetails` read by the steps. -/
structure ServerDetails where
  UUID : String
  Title : String
  Zone : String
  State : String
  StorageDevices : List ServerStorageDevice
  deriving DecidableEq, Repr

/-- The fields of `upcloud.StorageDetails` read by the steps and the builder. -/
structure StorageDetails where
  UUID : String
  Title : String
  Zone : String
  deriving DecidableEq, Repr

/-- SDK type `upcloud.CreateServerStorageDevice`. -/
structure CreateServerStorageDevice where
  Action : String
  Storage : String
  Title : String
  Size : Int
  Tier : String
  deriving DecidableEq, Repr

/-- SDK type `request.CreateServerIPAddress`. -/
structure CreateServerIPAddress where
  Access : String
  Family : String
  deriving DecidableEq, Repr

/-- SDK type `request.LoginUser`. -/
structure LoginUser where
  CreatePassword : String
  Username : String
  SSHKeys : List String
  deriving DecidableEq, Repr

/-- SDK type `request.CreateServerRequest`, the fields the step fills in. -/
structure CreateServerRequest where
  Title : String
  Hostname : String
  Zone : String
  PasswordDelivery : String
  CoreNumber : Int
  MemoryAmount : Int
  StorageDevices : List CreateServerStorageDevice
  IPAddresses : List CreateServerIPAddress
  LoginUser : LoginUser
  deriving DecidableEq, Repr

/-- SDK type `request.WaitForServerStateRequest`; an unset state is the empty string. -/
structure WaitForServerStateRequest where
  UUID : String
  DesiredState : String := ""
  UndesiredState : String := ""
  Timeout : Int
  deriving DecidableEq, Repr

/-- SDK type `request.GetServerDetailsRequest`. -/
structure GetServerDetailsRequest where
  UUID : String
  deriving DecidableEq, Repr

/-- SDK type `request.StopServerRequest`, the field the steps fill in. -/
structure StopServerRequest where
  UUID : String
  deriving DecidableEq, Repr

/-- SDK type `request.DeleteServerRequest`. -/
structure DeleteServerRequest where
  UUID : String
  deriving DecidableEq, Repr

/-- SDK type `request.DeleteStorageRequest`. -/
structure DeleteStorageRequest where
  UUID : String
  deriving DecidableEq, Repr

/-- SDK type `request.TemplatizeStorageRequest`. -/
structure TemplatizeStorageRequest where
  UUID : String
  Title : String
  deriving DecidableEq, Repr

/-- SDK type `request.WaitForStorageStateRequest`. -/
structure WaitForStorageStateRequest where
  UUID : String
  DesiredState : String
  Timeout : Int
  deriving DecidableEq, Repr

/-- One request sent to the cloud API. -/
inductive Call where
  | CreateServer (r : CreateServerRequest)
  | WaitForServerState (r : WaitForServerStateRequest)
  | GetServerDetails (r : GetServerDetailsRequest)
  | StopServer (r : StopServerRequest)
  | DeleteServer (r : DeleteServerRequest)
  | DeleteStorage (r : DeleteStorageRequest)
  | TemplatizeStorage (r : TemplatizeStorageRequest)
  | WaitForStorageState (r : WaitForStorageStateRequest)
  deriving DecidableEq, Repr

/-- The behaviour of the cloud API behind `service.Service`: the answer to a request,
given the requests issued before it (oldest first).  Methods returning `(*T, error)`
answer `Except Error T`; methods returning `error` answer `Option Error` (`none` is
`nil`). -/
structure Service where
  CreateServer : List Call → CreateServerRequest → Except Error ServerDetails
  WaitForServerState : List Call → WaitForServerStateRequest → Except Error ServerDetails
  GetServerDetails : List Call → GetServerDetailsRequest → Except Error ServerDetails
  StopServer : List Call → StopServerRequest → Except Error ServerDetails
  DeleteServer : List Call → DeleteServerRequest → Option Error
  DeleteStorage : List Call → DeleteStorageRequest → Option Error
  TemplatizeStorage : List Call → TemplatizeStorageRequest → Except Error StorageDetails
  WaitForStorageState : List Call → WaitForStorageStateRequest → Except Error StorageDetails

/-! ## Effects -/

/-- A line written to the `packer.Ui`. -/
inductive UiLine where
  | Say (msg : String)
  | Error (msg : String)
  deriving DecidableEq, Repr

/-- Everything the code does to its environment. -/
structure World where
  calls : List Call := []
  ui : List UiLine := []
  log : List String := []
  deriving DecidableEq, Repr

/-- A computation over the world; `none` is a Go panic. -/
def Exec (α : Type) : Type := World → Option α × World

/-- Sequencing: a panic stops the computation where it happened. -/
def Exec.bind {α β : Type} (m : Exec α) (f : α → Exec β) : Exec β := fun w =>
  match m w with
  | (some a, w1) => f a w1
  | (none, w1) => (none, w1)

instance : Monad Exec where
  pure a := fun w => (some a, w)
  bind := Exec.bind

/-- A Go panic. -/
def crash {α : Type} : Exec α := fun w => (none, w)

/-- Go `ui.Say(msg)`. -/
def uiSay (msg : String) : Exec Unit := fun w => (some (), { w with ui := w.ui ++ [UiLine.Say msg] })

/-- Go `ui.Error(msg)`. -/
def uiError (msg : String) : Exec Unit := fun w =>
  (some (), { w with ui := w.ui ++ [UiLine.Error msg] })

/-- Go `log.Printf` / `log.Println`. -/
def logLine (msg : String) : Exec Unit := fun w => (some (), { w with log := w.log ++ [msg] })

/-- Sends `c` to the API; `answer` computes the response from the earlier requests. -/
def request {α : Type} (c : Call) (answer : List Call → α) : Exec α := fun w =>
  (some (answer w.calls), { w with calls := w.calls ++ [c] })

/-- Go `service.CreateServer(r)`. -/
def Service.createServer (s : Service) (r : CreateServerRequest) : Exec (Except Error ServerDetails) :=
  request (Call.CreateServer r) (fun h => s.CreateServer h r)

/-- Go `service.WaitForServerState(r)`. -/
def Service.waitForServerState (s : Service) (r : WaitForServerStateRequest) :
    Exec (Except Error ServerDetails) :=
  request (Call.WaitForServerState r) (fun h => s.WaitForServerState h r)

/-- Go `service.GetServerDetails(r)`. -/
def Service.getServerDetails (s : Service) (r : GetServerDetailsRequest) :
    Exec (Except Error ServerDetails) :=
  request (Call.GetServerDetails r) (fun h => s.GetServerDetails h r)

/-- Go `service.StopServer(r)`. -/
def Service.stopServer (s : Service) (r : StopServerRequest) : Exec (Except Error ServerDetails) :=
  request (Call.StopServer r) (fun h => s.StopServer h r)

/-- Go `service.DeleteServer(r)`. -/
def Service.deleteServer (s : Service) (r : DeleteServerRequest) : Exec (Option Error) :=
  request (Call.DeleteServer r) (fun h => s.DeleteServer h r)

/-- Go `service.DeleteStorage(r)`. -/
def Service.deleteStorage (s : Service) (r : DeleteStorageRequest) : Exec (Option Error) :=
  request (Call.DeleteStorage r) (fun h => s.DeleteStorage h r)

/-- Go `service.TemplatizeStorage(r)`. -/
def Service.templatizeStorage (s : Service) (r : TemplatizeStorageRequest) :
    Exec (Except Error StorageDetails) :=
  request (Call.TemplatizeStorage r) (fun h => s.TemplatizeStorage h r)

/-- Go `service.WaitForStorageState(r)`. -/
def Service.waitForStorageState (s : Service) (r : WaitForStorageStateRequest) :
    Exec (Except Error StorageDetails) :=
  request (Call.WaitForStorageState r) (fun h => s.WaitForStorageState h r)

/-! ## artifact.go -/

/-- Go `fmt` rendering of a `[]string` under the verb `%s`. -/
def fmtStrings (xs : List String) : String := "[" ++ " ".intercalate xs ++ "]"

/-- Go `Artifact`. -/
structure Artifact where
  UUID : List String
  Zone : List String
  Title : List String
  service : Service

/-- The loop of `Artifact.Destroy` over the UUIDs still to delete. -/
def Artifact.Destroy.loop (service : Service) : List String → Exec (Option Error)
  | [] => pure none
  | uuid :: rest => do
    let err ← service.deleteStorage { UUID := uuid }
    match err with
    | some e => pure (some e)
    | none => Artifact.Destroy.loop service rest

/-- Go `(*Artifact).Destroy`. -/
def Artifact.Destroy (a : Artifact) : Exec (Option Error) := do
  logLine ("Deleting template \"" ++ fmtStrings a.Title ++ "\"")
  Artifact.Destroy.loop a.service a.UUID

/-! ## Shared state of a run -/

/-- The communicator part of the configuration, `config.Comm`. -/
structure CommConfig where
  SSHUsername : String
  deriving DecidableEq, Repr

/-- Modelled from the spec: the declaration of `Config` is in a file of the package that
is not at hand.  These are the inputs the spec lists for a run (zone list, source-image
identifier, target disk size, template title prefix, per-state-transition timeout, login
username), under the names the steps read them by. -/
structure Config where
  Zone : List String
  StorageUUID : String
  StorageSize : Int
  TemplatePrefix : String
  StateTimeoutDuration : Int
  Comm : CommConfig
  deriving DecidableEq, Repr

/-- Go `multistep.StepAction`. -/
inductive StepAction where
  | ActionContinue
  | ActionHalt
  deriving DecidableEq, Repr

/-- The dynamic types found under the key "storage_details": `StepTemplatizeStorage.Run`
stores a `[]*upcloud.StorageDetails`, `StepTemplatizeStorage.Cleanup` asserts a
`*upcloud.StorageDetails`.  A nil pointer is `none`. -/
inductive StorageEntry where
  | one (d : Option StorageDetails)
  | many (ds : List (Option StorageDetails))
  deriving DecidableEq, Repr

/-- The `multistep.StateBag`, one field per key used in these files; a key that was never
put is `none`.  "config" and "service" are put by `Builder.Run` before any step runs;
"ui" is the `World`. -/
structure StateBag where
  config : Config
  service : Service
  ssh_public_key : Option String := none
  server_details : Option (List (Option ServerDetails)) := none
  storage_details : Option StorageEntry := none
  step_templatize_storage_success : Option Bool := none
  error : Option Error := none

/-- Modelled from the spec: `handleError` is defined in a file of the package that is not
at hand.  "Step-level errors are recorded once into the Shared Run Context and propagate
to the Orchestrator as a halt signal"; the error slot is first-write-wins, and "a final
error message summarizes the cause" for the user. -/
def handleError (err : Error) (state : StateBag) : Exec (StateBag × StepAction) := do
  uiError err
  let recorded := match state.error with
    | some first => some first
    | none => some err
  pure ({ state with error := recorded }, StepAction.ActionHalt)

/-! ## errgroup -/

/-- Go `errgroup.Group`: the first error returned by a task. -/
structure Group where
  err : Option Error := none
  deriving DecidableEq, Repr

/-- The group after a task has returned `err`: only the first error is kept. -/
def Group.record (g : Group) (err : Option Error) : Group :=
  match g.err with
  | some first => { err := some first }
  | none => { err := err }

/-- Go `errGrp.Go(task)`: the task runs to completion; `σ` is what the closure writes to
the variables it captured. -/
def Group.Go {σ : Type} (g : Group) (task : Exec (Option Error × σ)) : Exec (Group × σ) := do
  let (err, captured) ← task
  pure (g.record err, captured)

/-- Go `errGrp.Wait()`, once every started task has returned. -/
def Group.Wait (g : Group) : Option Error := g.err

/-! ## step_create_server.go -/

/-- The closure passed to `errGrp.Go` in `StepCreateServer.Run`, for index `i` and `zone`;
`results` is the captured slice. -/
def StepCreateServer.Run.task (state : StateBag) (service : Service) (config : Config)
    (i : Nat) (zone : String) (results : List (Option ServerDetails)) :
    Exec (Option Error × List (Option ServerDetails)) := do
  let title := config.TemplatePrefix
  let hostname := title
  -- `state.Get("ssh_public_key").(string)` panics when the key was never put
  let sshPublicKey ← match state.ssh_public_key with
    | some key => pure key
    | none => crash
  let createServerRequest : CreateServerRequest := {
    Title := title
    Hostname := hostname
    Zone := zone
    PasswordDelivery := PasswordDeliveryNone
    CoreNumber := 1
    MemoryAmount := 1024
    StorageDevices := [
      { Action := CreateServerStorageDeviceActionClone
        Storage := config.StorageUUID
        Title := title ++ "-disk1"
        Size := config.StorageSize
        Tier := StorageTierMaxIOPS }]
    IPAddresses := [
      { Access := IPAddressAccessPrivate, Family := IPAddressFamilyIPv4 },
      { Access := IPAddressAccessPublic, Family := IPAddressFamilyIPv4 },
      { Access := IPAddressAccessPublic, Family := IPAddressFamilyIPv6 }]
    LoginUser := {
      CreatePassword := "no"
      Username := config.Comm.SSHUsername
      SSHKeys := [sshPublicKey] } }
  uiSay ("Creating server \"" ++ createServerRequest.Title ++ "\" ...")
  match ← service.createServer createServerRequest with
  | Except.error err => pure (some ("error creating server instance: " ++ err), results)
  | Except.ok serverDetails =>
    -- Store the server details in the state immediately
    let results := results.set i (some serverDetails)
    uiSay ("Waiting for server \"" ++ serverDetails.Title ++ "\" to enter the \"started\" state ...")
    match ← service.waitForServerState {
        UUID := serverDetails.UUID
        DesiredState := ServerStateStarted
        Timeout := config.StateTimeoutDuration } with
    | Except.error _ =>
      -- the SDK answers a nil `*ServerDetails` with an error, and the message is built
      -- from `serverDetails.Title`
      crash
    | Except.ok serverDetails =>
      let results := results.set i (some serverDetails)
      uiSay ("Server \"" ++ serverDetails.Title ++ "\" is now in \"started\" state")
      pure (none, results)

/-- The loop `for i, zone := range config.Zone` of `StepCreateServer.Run`, from index `i`. -/
def StepCreateServer.Run.loop (state : StateBag) (service : Service) (config : Config) :
    Nat → List String → Group → List (Option ServerDetails) →
      Exec (Group × List (Option ServerDetails))
  | _, [], errGrp, results => pure (errGrp, results)
  | i, zone :: rest, errGrp, results => do
    let (errGrp, results) ← errGrp.Go (StepCreateServer.Run.task state service config i zone results)
    StepCreateServer.Run.loop state service config (i + 1) rest errGrp results

/-- Go `(*StepCreateServer).Run`. -/
def StepCreateServer.Run (state : StateBag) : Exec (StateBag × StepAction) := do
  let service := state.service
  let config := state.config
  let errGrp : Group := {}
  let results : List (Option ServerDetails) := List.replicate config.Zone.length none
  let (errGrp, results) ← StepCreateServer.Run.loop state service config 0 config.Zone errGrp results
  match errGrp.Wait with
  | some err => handleError err state
  | none => pure ({ state with server_details := some results }, StepAction.ActionContinue)

/-- The search for the first device of type disk in `StepCreateServer.Cleanup`: its UUID
and title, or two empty strings. -/
def StepCreateServer.Cleanup.disk : List ServerStorageDevice → String × String
  | [] => ("", "")
  | storage :: rest =>
    if storage.Type_ = StorageTypeDisk then (storage.UUID, storage.Title)
    else StepCreateServer.Cleanup.disk rest

/-- The closure passed to `errGrp.Go` in `StepCreateServer.Cleanup`, for one element of
"server_details". -/
def StepCreateServer.Cleanup.task (service : Service) (config : Config)
    (slot : Option ServerDetails) : Exec (Option Error × Unit) := do
  -- a nil element is dereferenced by `serverDetails.Title`
  let serverDetails ← match slot with
    | some d => pure d
    | none => crash
  uiSay ("Waiting for server \"" ++ serverDetails.Title ++ "\" to exit the \"maintenance\" state ...")
  match ← service.waitForServerState {
      UUID := serverDetails.UUID
      UndesiredState := ServerStateMaintenance
      Timeout := config.StateTimeoutDuration } with
  | Except.error err =>
    pure (some ("Error while waiting for server \"" ++ serverDetails.Title ++
      "\" to exit the \"maintenance\" state: " ++ err), ())
  | Except.ok _ =>
  match ← service.getServerDetails { UUID := serverDetails.UUID } with
  | Except.error err =>
    pure (some ("Failed to get details for server \"" ++ serverDetails.Title ++ "\": " ++ err), ())
  | Except.ok newServerDetails =>
  let stopped : Exec (Option Error) :=
    if newServerDetails.State ≠ ServerStateStopped then do
      uiSay ("Stopping server \"" ++ serverDetails.Title ++ "\" ...")
      match ← service.stopServer { UUID := serverDetails.UUID } with
      | Except.error err =>
        pure (some ("Failed to stop server \"" ++ serverDetails.Title ++ "\": " ++ err))
      | Except.ok _ =>
        uiSay ("Waiting for server \"" ++ serverDetails.Title ++
          "\" to enter the \"stopped\" state ...")
        match ← service.waitForServerState {
            UUID := serverDetails.UUID
            DesiredState := ServerStateStopped
            Timeout := config.StateTimeoutDuration } with
        | Except.error err =>
          pure (some ("Error while waiting for server \"" ++ serverDetails.Title ++
            "\" to enter the \"stopped\" state: " ++ err))
        | Except.ok _ => pure none
    else pure none
  match ← stopped with
  | some err => pure (some err, ())
  | none =>
  let (storageUUID, storageTitle) := StepCreateServer.Cleanup.disk newServerDetails.StorageDevices
  uiSay ("Deleting server \"" ++ serverDetails.Title ++ "\" ...")
  match ← service.deleteServer { UUID := serverDetails.UUID } with
  | some err =>
    pure (some ("Failed to delete server \"" ++ serverDetails.Title ++ "\": " ++ err), ())
  | none =>
  if storageUUID ≠ "" then do
    uiSay ("Deleting disk \"" ++ storageTitle ++ "\" ...")
    match ← service.deleteStorage { UUID := storageUUID } with
    | some err => pure (some ("Failed to delete disk \"" ++ storageTitle ++ "\": " ++ err), ())
    | none => pure (none, ())
  else pure (none, ())

/-- The loop `for _, serverDetails := range serversDetails` of `StepCreateServer.Cleanup`:
`errGrp.Wait()` is called inside the loop body, after each `errGrp.Go`. -/
def StepCreateServer.Cleanup.loop (service : Service) (config : Config) :
    List (Option ServerDetails) → Group → Exec Unit
  | [], _ => pure ()
  | serverDetails :: rest, errGrp => do
    let (errGrp, _) ← errGrp.Go (StepCreateServer.Cleanup.task service config serverDetails)
    match errGrp.Wait with
    | some err => uiError err
    | none => StepCreateServer.Cleanup.loop service config rest errGrp

/-- Go `(*StepCreateServer).Cleanup`. -/
def StepCreateServer.Cleanup (state : StateBag) : Exec Unit :=
  match state.server_details with
  | none => pure ()
  | some serversDetails =>
    let config := state.config
    let service := state.service
    let errGrp : Group := {}
    StepCreateServer.Cleanup.loop service config serversDetails errGrp

/-! ## step_templatize_storage.go -/

/-- The character of one decimal digit. -/
def digitChar : Nat → Char
  | 0 => '0'
  | 1 => '1'
  | 2 => '2'
  | 3 => '3'
  | 4 => '4'
  | 5 => '5'
  | 6 => '6'
  | 7 => '7'
  | 8 => '8'
  | _ => '9'

/-- The decimal digits of `n`, most significant first; `fuel` bounds the number of digits
and `n + 1` is always enough. -/
def decimalDigits : Nat → Nat → List Char
  | 0, _ => []
  | fuel + 1, n =>
    if n < 10 then [digitChar n] else decimalDigits fuel (n / 10) ++ [digitChar (n % 10)]

/-- Go `fmt` rendering of an integer under the verb `%d`. -/
def decimal : Int → String
  | Int.ofNat n => String.mk (decimalDigits (n + 1) n)
  | Int.negSucc n => String.mk ('-' :: decimalDigits (n + 2) (n + 1))

/-- Go `time.Now().Unix()`: the wall clock in Unix seconds, as read once the given requests
have been issued. -/
abbrev Clock := List Call → Int

/-- Reads the clock. -/
def timeNowUnix (now : Clock) : Exec Int := fun w => (some (now w.calls), w)

/-- Go `fmt.Sprintf("%s-template-%d", title, unix)`. -/
def templateTitle (title : String) (unix : Int) : String :=
  title ++ "-template-" ++ decimal unix

/-- The loop `for _, storage := range serverDetails.StorageDevices` in the closure of
`StepTemplatizeStorage.Run`, followed by the statement after it. -/
def StepTemplatizeStorage.Run.devices (now : Clock) (service : Service) (config : Config) (i : Nat)
    (templatesDetails : List (Option StorageDetails)) :
    List ServerStorageDevice → Exec (Option Error × List (Option StorageDetails))
  | [] =>
    -- No storage found, we'll have to abort
    pure (some "Unable to find the storage device to templatize", templatesDetails)
  | storage :: rest =>
    if storage.Type_ = StorageTypeDisk then do
      uiSay ("Templatizing storage device \"" ++ storage.Title ++ "\" ...")
      -- Determine the title to start the template title with
      let title := if config.TemplatePrefix ≠ "" then config.TemplatePrefix else storage.Title
      let unix ← timeNowUnix now
      match ← service.templatizeStorage {
          UUID := storage.UUID
          Title := templateTitle title unix } with
      | Except.error err => pure (some err, templatesDetails)
      | Except.ok storageDetails =>
        uiSay ("Waiting for storage \"" ++ storageDetails.Title ++ "\" to enter the \"online\" state")
        match ← service.waitForStorageState {
            UUID := storageDetails.UUID
            DesiredState := StorageStateOnline
            Timeout := config.StateTimeoutDuration } with
        | Except.error err => pure (some err, templatesDetails)
        | Except.ok storageDetails =>
          -- `templatesDetails[i] = storageDetails` panics when `i` is out of range
          if i < templatesDetails.length then
            pure (none, templatesDetails.set i (some storageDetails))
          else crash
    else StepTemplatizeStorage.Run.devices now service config i templatesDetails rest

/-- The closure passed to `errGrp.Go` in `StepTemplatizeStorage.Run`, for index `i` and one
element of "server_details"; `templatesDetails` is the captured slice. -/
def StepTemplatizeStorage.Run.task (now : Clock) (service : Service) (config : Config) (i : Nat)
    (slot : Option ServerDetails) (templatesDetails : List (Option StorageDetails)) :
    Exec (Option Error × List (Option StorageDetails)) := do
  -- a nil element is dereferenced by `serverDetails.Title`
  let serverDetails ← match slot with
    | some d => pure d
    | none => crash
  uiSay ("Stopping server \"" ++ serverDetails.Title ++ "\" ...")
  match ← service.stopServer { UUID := serverDetails.UUID } with
  | Except.error err => pure (some err, templatesDetails)
  | Except.ok serverDetails =>
  uiSay ("Waiting for server \"" ++ serverDetails.Title ++ "\" to enter the \"stopped\" state ...")
  match ← service.waitForServerState {
      UUID := serverDetails.UUID
      DesiredState := ServerStateStopped
      Timeout := config.StateTimeoutDuration } with
  | Except.error err => pure (some err, templatesDetails)
  | Except.ok serverDetails =>
  uiSay ("Server \"" ++ serverDetails.Title ++ "\" is now in \"stopped\" state")
  -- Templatize the first disk device in the server
  StepTemplatizeStorage.Run.devices now service config i templatesDetails serverDetails.StorageDevices

/-- The loop `for i, serverDetails := range serversDetails` of `StepTemplatizeStorage.Run`,
from index `i`. -/
def StepTemplatizeStorage.Run.loop (now : Clock) (service : Service) (config : Config) :
    Nat → List (Option ServerDetails) → Group → List (Option StorageDetails) →
      Exec (Group × List (Option StorageDetails))
  | _, [], errGrp, templatesDetails => pure (errGrp, templatesDetails)
  | i, serverDetails :: rest, errGrp, templatesDetails => do
    let (errGrp, templatesDetails) ←
      errGrp.Go (StepTemplatizeStorage.Run.task now service config i serverDetails templatesDetails)
    StepTemplatizeStorage.Run.loop now service config (i + 1) rest errGrp templatesDetails

/-- Go `(*StepTemplatizeStorage).Run`. -/
def StepTemplatizeStorage.Run (now : Clock) (state : StateBag) : Exec (StateBag × StepAction) := do
  -- Store a success indicator in the state
  let state := { state with step_templatize_storage_success := some false }
  let service := state.service
  let config := state.config
  -- `state.Get("server_details").([]*upcloud.ServerDetails)` panics when the key is missing
  let serversDetails ← match state.server_details with
    | some d => pure d
    | none => crash
  let templatesDetails : List (Option StorageDetails) := List.replicate config.Zone.length none
  let errGrp : Group := {}
  let (errGrp, templatesDetails) ←
    StepTemplatizeStorage.Run.loop now service config 0 serversDetails errGrp templatesDetails
  match errGrp.Wait with
  | some err => handleError err state
  | none =>
    pure ({ state with
            storage_details := some (StorageEntry.many templatesDetails)
            step_templatize_storage_success := some true }, StepAction.ActionContinue)

/-- Go `(*StepTemplatizeStorage).Cleanup`. -/
def StepTemplatizeStorage.Cleanup (state : StateBag) : Exec Unit :=
  -- `state.Get("step_templatize_storage_success").(bool)` panics when the key is missing
  match state.step_templatize_storage_success with
  | none => crash
  | some true => pure ()
  | some false =>
    match state.storage_details with
    | none => pure ()
    -- `rawDetails.(*upcloud.StorageDetails)` panics on a slice
    | some (StorageEntry.many _) => crash
    -- a nil pointer is dereferenced by `storageDetails.UUID`
    | some (StorageEntry.one none) => crash
    | some (StorageEntry.one (some storageDetails)) => do
      let service := state.service
      -- Delete the storage device
      match ← service.deleteStorage { UUID := storageDetails.UUID } with
      | some err => uiError err
      | none => pure ()

/-! ## The step runner and builder.go -/

/-- Go `multistep.Step`. -/
structure Step where
  Run : StateBag → Exec (StateBag × StepAction)
  Cleanup : StateBag → Exec StateBag

/-- The `multistep.BasicRunner` of the library, with no cancellation request: the steps
run in order until one answers halt, and `Cleanup` is deferred for every step whose `Run`
was called, so the cleanups run most recent first. -/
def BasicRunner.Run : List Step → StateBag → Exec StateBag
  | [], state => pure state
  | step :: rest, state => do
    let (state, action) ← step.Run state
    let state ← match action with
      | StepAction.ActionHalt => pure state
      | StepAction.ActionContinue => BasicRunner.Run rest state
    step.Cleanup state

/-- What `Builder.Run` uses from outside these files: the client constructor
`Config.GetService`, the key-pair step of the package, the connect and provision steps of
Packer, and the wall clock. -/
structure Externals where
  GetService : Config → Service
  StepCreateSSHKey : Step
  StepConnect : Step
  StepProvision : Step
  Now : Clock

/-- Go `new(StepCreateServer)` as a step. -/
def stepCreateServer : Step where
  Run := StepCreateServer.Run
  Cleanup := fun state => do
    StepCreateServer.Cleanup state
    pure state

/-- Go `new(StepTemplatizeStorage)` as a step. -/
def stepTemplatizeStorage (now : Clock) : Step where
  Run := StepTemplatizeStorage.Run now
  Cleanup := fun state => do
    StepTemplatizeStorage.Cleanup state
    pure state

/-- Go `Builder`; `config` is nil until `Prepare` has run. -/
structure Builder where
  config : Option Config

/-- The loop `for i, storage := range storageDetails` of `Builder.Run`, from index `i`:
it assigns `uuid[i]` and `zone[i]`. -/
def Builder.Run.fill : Nat → List (Option StorageDetails) → List String → List String →
    Exec (List String × List String)
  | _, [], uuid, zone => pure (uuid, zone)
  | _, none :: _, _, _ => crash
  | i, some storage :: rest, uuid, zone =>
    Builder.Run.fill (i + 1) rest (uuid.set i storage.UUID) (zone.set i storage.Zone)

/-- The part of `Builder.Run` after `self.runner.Run(state)`. -/
def Builder.Run.result (service : Service) (state : StateBag) :
    Exec (Option Artifact × Option Error) :=
  match state.error with
  | some rawErr => pure (none, some rawErr)
  | none =>
    -- Extract the final storage details from the state
    match state.storage_details with
    | none => do
      logLine "No storage details found in state, the build was probably cancelled"
      pure (none, none)
    -- `rawDetails.([]*upcloud.StorageDetails)` panics on a single pointer
    | some (StorageEntry.one _) => crash
    | some (StorageEntry.many storageDetails) => do
      let uuid := List.replicate storageDetails.length ""
      let zone := List.replicate storageDetails.length ""
      let title := List.replicate storageDetails.length ""
      let (uuid, zone) ← Builder.Run.fill 0 storageDetails uuid zone
      -- Create an artifact and return it
      let artifact : Artifact := {
        UUID := uuid
        Zone := zone
        Title := title
        service := service }
      pure (some artifact, none)

/-- The steps built by `Builder.Run`. -/
def Builder.Run.steps (ext : Externals) : List Step :=
  [ext.StepCreateSSHKey, stepCreateServer, ext.StepConnect, ext.StepProvision,
    stepTemplatizeStorage ext.Now]

/-- Go `(*Builder).Run`. -/
def Builder.Run (self : Builder) (ext : Externals) : Exec (Option Artifact × Option Error) := do
  -- `self.config.GetService()` and `*self.config` need a config
  let config ← match self.config with
    | some c => pure c
    | none => crash
  let service := ext.GetService config
  let state : StateBag := { config := config, service := service }
  let state ← BasicRunner.Run (Builder.Run.steps ext) state
  Builder.Run.result service state

/-! ## A scenario cloud -/

/-- The single disk the scenario cloud reports for the server `uuid`. -/
def mockDisk (uuid : String) : ServerStorageDevice :=
  { UUID := uuid, Title := "disk-" ++ uuid, Type_ := StorageTypeDisk }

/-- The details the scenario cloud reports for the server `uuid` in state `state`. -/
def mockServer (uuid state : String) : ServerDetails :=
  { UUID := uuid, Title := "server-" ++ uuid, Zone := uuid, State := state,
    StorageDevices := [mockDisk uuid] }

/-- The title given to the template `uuid` by the `TemplatizeStorage` request that made it,
looked up among the requests issued so far. -/
def mockTitle (uuid : String) : List Call → String
  | [] => ""
  | Call.TemplatizeStorage r :: rest => if r.UUID = uuid then r.Title else mockTitle uuid rest
  | _ :: rest => mockTitle uuid rest

/-- The details the scenario cloud reports for the template `uuid`. -/
def mockTemplate (uuid title : String) : StorageDetails :=
  { UUID := uuid, Title := title, Zone := uuid }

/-- A cloud for scenarios: every resource of a zone carries the zone's name as its UUID, a
server has one disk, a template keeps the title it was requested with, and a request fails
exactly when `fails` gives it an error. -/
def mockService (fails : Call → Option Error) : Service where
  CreateServer := fun _ r =>
    match fails (Call.CreateServer r) with
    | some e => Except.error e
    | none => Except.ok (mockServer r.Zone ServerStateMaintenance)
  WaitForServerState := fun _ r =>
    match fails (Call.WaitForServerState r) with
    | some e => Except.error e
    | none => Except.ok (mockServer r.UUID r.DesiredState)
  GetServerDetails := fun _ r =>
    match fails (Call.GetServerDetails r) with
    | some e => Except.error e
    | none => Except.ok (mockServer r.UUID ServerStateStarted)
  StopServer := fun _ r =>
    match fails (Call.StopServer r) with
    | some e => Except.error e
    | none => Except.ok (mockServer r.UUID ServerStateStarted)
  DeleteServer := fun _ r => fails (Call.DeleteServer r)
  DeleteStorage := fun _ r => fails (Call.DeleteStorage r)
  TemplatizeStorage := fun _ r =>
    match fails (Call.TemplatizeStorage r) with
    | some e => Except.error e
    | none => Except.ok (mockTemplate r.UUID r.Title)
  WaitForStorageState := fun h r =>
    match fails (Call.WaitForStorageState r) with
    | some e => Except.error e
    | none => Except.ok (mockTemplate r.UUID (mockTitle r.UUID h))

/-- A configuration for scenarios, over the given zones. -/
def mockConfig (zones : List String) : Config where
  Zone := zones
  StorageUUID := "01000000-0000-4000-8000-000030060200"
  StorageSize := 10
  TemplatePrefix := "prefix"
  StateTimeoutDuration := 300
  Comm := { SSHUsername := "root" }

/-- A step that does nothing and continues. -/
def mockStep : Step where
  Run := fun state => pure (state, StepAction.ActionContinue)
  Cleanup := fun state => pure state

/-- A key-pair step: it puts "ssh_public_key" and continues. -/
def mockStepCreateSSHKey : Step where
  Run := fun state => pure ({ state with ssh_public_key := some "ssh-rsa AAAA" },
    StepAction.ActionContinue)
  Cleanup := fun state => pure state

/-- The surroundings of `Builder.Run` in scenarios: the scenario cloud with the given
failures, steps that succeed, and a clock stopped at `unix`. -/
def mockExternals (fails : Call → Option Error) (unix : Int) : Externals where
  GetService := fun _ => mockService fails
  StepCreateSSHKey := mockStepCreateSSHKey
  StepConnect := mockStep
  StepProvision := mockStep
  Now := fun _ => unix

/-- No request fails. -/
def noFailure : Call → Option Error := fun _ => none

/-! ## Definitions used by the statements -/

/-- The `DeleteStorage` requests for a list of UUIDs, in list order. -/
def deleteCalls (uuids : List String) : List Call :=
  uuids.map (fun u => Call.DeleteStorage { UUID := u })

/-- Every deletion of `uuids`, issued in list order after the requests `h`, succeeds. -/
def AllDeleted (service : Service) (h : List Call) (uuids : List String) : Prop :=
  ∀ pre u post, uuids = pre ++ u :: post →
    service.DeleteStorage (h ++ deleteCalls pre) { UUID := u } = none

/-- What one run of the deletion loop did: it either deleted everything, or stopped at
the first UUID `u` whose deletion failed, after deleting exactly the UUIDs before it. -/
def DestroyOutcome (service : Service) (h : List Call) (uuids : List String)
    (result : Option (Option Error)) (calls : List Call) : Prop :=
  (result = some none ∧ calls = h ++ deleteCalls uuids ∧ AllDeleted service h uuids) ∨
  (∃ pre u post e, uuids = pre ++ u :: post ∧ AllDeleted service h pre ∧
      service.DeleteStorage (h ++ deleteCalls pre) { UUID := u } = some e ∧
      result = some (some e) ∧ calls = h ++ deleteCalls (pre ++ [u]))


/-- Go `StepCreateServer.Run` followed by `StepCreateServer.Cleanup` on the state it left. -/
def StepCreateServer.RunThenCleanup (state : StateBag) : Exec Unit := do
  let (state, _) ← StepCreateServer.Run state
  StepCreateServer.Cleanup state

/-- Go `StepTemplatizeStorage.Run` followed by `StepTemplatizeStorage.Cleanup` on the state
it left. -/
def StepTemplatizeStorage.RunThenCleanup (now : Clock) (state : StateBag) : Exec Unit := do
  let (state, _) ← StepTemplatizeStorage.Run now state
  StepTemplatizeStorage.Cleanup state

/-- Creating a server fails in "zone-b" and nothing else fails. -/
def createFailsInZoneB : Call → Option Error
  | Call.CreateServer r => if r.Zone = "zone-b" then some "insufficient capacity" else none
  | _ => none

/-- Stopping the server "zone-b" fails and nothing else fails. -/
def stopFailsInZoneB : Call → Option Error
  | Call.StopServer r => if r.UUID = "zone-b" then some "server is busy" else none
  | _ => none

/-- Waiting for the server "zone-a" to leave the maintenance state fails and nothing else
fails. -/
def maintenanceWaitFailsInZoneA : Call → Option Error
  | Call.WaitForServerState r =>
    if r.UUID = "zone-a" ∧ r.UndesiredState = ServerStateMaintenance then some "timeout reached"
    else none
  | _ => none

/-- The request `StepCreateServer.Run` sends for `zone` in the scenarios. -/
def mockCreateRequest (zone : String) : CreateServerRequest where
  Title := "prefix"
  Hostname := "prefix"
  Zone := zone
  PasswordDelivery := "none"
  CoreNumber := 1
  MemoryAmount := 1024
  StorageDevices := [
    { Action := "clone", Storage := "01000000-0000-4000-8000-000030060200",
      Title := "prefix-disk1", Size := 10, Tier := "maxiops" }]
  IPAddresses := [
    { Access := "private", Family := "IPv4" },
    { Access := "public", Family := "IPv4" },
    { Access := "public", Family := "IPv6" }]
  LoginUser := { CreatePassword := "no", Username := "root", SSHKeys := ["ssh-rsa AAAA"] }

/-! # Theorems -/

/-! ## Statements about `Artifact.Destroy` -/

theorem deleteCalls_cons (u : String) (us : List String) :
    deleteCalls (u :: us) = Call.DeleteStorage { UUID := u } :: deleteCalls us := rfl

theorem deleteCalls_append (xs ys : List String) :
    deleteCalls (xs ++ ys) = deleteCalls xs ++ deleteCalls ys := by
  simp [deleteCalls]

theorem AllDeleted_nil (service : Service) (h : List Call) : AllDeleted service h [] := by
  intro pre u post hsplit
  cases pre <;> simp at hsplit

theorem AllDeleted_cons (service : Service) (h : List Call) (u : String) (us : List String) :
    AllDeleted service h (u :: us) ↔
      service.DeleteStorage h { UUID := u } = none ∧
        AllDeleted service (h ++ [Call.DeleteStorage { UUID := u }]) us := by
  constructor
  · intro hall
    refine ⟨?_, ?_⟩
    · simpa [deleteCalls] using hall [] u us rfl
    · intro pre v post hsplit
      have := hall (u :: pre) v post (by simp [hsplit])
      simpa [deleteCalls_cons, List.append_assoc] using this
  · rintro ⟨h0, hrest⟩ pre v post hsplit
    cases pre with
    | nil =>
      simp at hsplit
      obtain ⟨rfl, -⟩ := hsplit
      simpa [deleteCalls] using h0
    | cons p pre =>
      simp at hsplit
      obtain ⟨rfl, hus⟩ := hsplit
      have := hrest pre v post hus
      simpa [deleteCalls_cons, List.append_assoc] using this

theorem Destroy_loop_outcome (service : Service) (uuids : List String) (w : World) :
    DestroyOutcome service w.calls uuids (Artifact.Destroy.loop service uuids w).1
      (Artifact.Destroy.loop service uuids w).2.calls := by
  induction uuids generalizing w with
  | nil =>
    left
    exact ⟨rfl, by simp [Artifact.Destroy.loop, deleteCalls, pure], AllDeleted_nil _ _⟩
  | cons u us ih =>
    cases hresp : service.DeleteStorage w.calls { UUID := u } with
    | some e =>
      right
      refine ⟨[], u, us, e, rfl, AllDeleted_nil _ _, by simpa [deleteCalls] using hresp, ?_, ?_⟩
      · simp [Artifact.Destroy.loop, Service.deleteStorage, request, bind, Exec.bind, hresp, pure]
      · simp [Artifact.Destroy.loop, Service.deleteStorage, request, bind, Exec.bind, hresp, pure,
          deleteCalls]
    | none =>
      have hstep : Artifact.Destroy.loop service (u :: us) w =
          Artifact.Destroy.loop service us
            { w with calls := w.calls ++ [Call.DeleteStorage { UUID := u }] } := by
        simp [Artifact.Destroy.loop, Service.deleteStorage, request, bind, Exec.bind, hresp]
      rw [hstep]
      rcases ih { w with calls := w.calls ++ [Call.DeleteStorage { UUID := u }] } with
        ⟨hres, hcalls, hall⟩ | ⟨pre, v, post, e, hsplit, hall, hfail, hres, hcalls⟩
      · left
        refine ⟨hres, ?_, (AllDeleted_cons _ _ _ _).2 ⟨hresp, hall⟩⟩
        simpa [deleteCalls_cons, List.append_assoc] using hcalls
      · right
        refine ⟨u :: pre, v, post, e, by simp [hsplit], (AllDeleted_cons _ _ _ _).2 ⟨hresp, hall⟩,
          ?_, hres, ?_⟩
        · simpa [deleteCalls_cons, List.append_assoc] using hfail
        · simpa [deleteCalls_cons, List.append_assoc] using hcalls

theorem DestroyOutcome_success_iff (service : Service) (h : List Call) (uuids : List String)
    (result : Option (Option Error)) (calls : List Call)
    (hout : DestroyOutcome service h uuids result calls) :
    result = some none ↔ AllDeleted service h uuids := by
  rcases hout with ⟨hres, -, hall⟩ | ⟨pre, u, post, e, hsplit, -, hfail, hres, -⟩
  · exact ⟨fun _ => hall, fun _ => hres⟩
  · constructor
    · intro hnone
      rw [hres] at hnone
      cases hnone
    · intro hall
      have := hall pre u post hsplit
      rw [hfail] at this
      cases this

/-- C3: `Artifact.Destroy` deletes the UUIDs in list order and is fail-fast.  Whatever the
client does, a run either issues `DeleteStorage` for every UUID with every deletion
succeeding and returns nil, or it stops at the first UUID whose deletion fails, having
issued `DeleteStorage` for the UUIDs up to and including that one and for none after it,
and returns exactly that deletion's error; it returns nil if and only if every deletion
succeeded. -/
theorem Artifact_Destroy_fail_fast (a : Artifact) (w : World) :
    DestroyOutcome a.service w.calls a.UUID (a.Destroy w).1 (a.Destroy w).2.calls ∧
      ((a.Destroy w).1 = some none ↔ AllDeleted a.service w.calls a.UUID) := by
  have hrun : a.Destroy w = Artifact.Destroy.loop a.service a.UUID
      { w with log := w.log ++ ["Deleting template \"" ++ fmtStrings a.Title ++ "\""] } := by
    simp [Artifact.Destroy, logLine, bind, Exec.bind]
  have hout := Destroy_loop_outcome a.service a.UUID
    { w with log := w.log ++ ["Deleting template \"" ++ fmtStrings a.Title ++ "\""] }
  rw [← hrun] at hout
  exact ⟨hout, DestroyOutcome_success_iff _ _ _ _ _ hout⟩

/-! ## Scenarios in which the code departs from the specification -/

/-- C1, the code at a failing input: zones "zone-a" and "zone-b", creation succeeds in
"zone-a" and fails in "zone-b".  `Run` halts without putting "server_details", so `Cleanup`
returns at once: the three requests of `Run` are all that is ever sent, and the server
created in "zone-a" is neither deleted nor is its disk. -/
theorem StepCreateServer_cleanup_leaves_created_server :
    (mockService createFailsInZoneB).CreateServer [] (mockCreateRequest "zone-a") =
        Except.ok (mockServer "zone-a" ServerStateMaintenance) ∧
      StepCreateServer.RunThenCleanup
          { config := mockConfig ["zone-a", "zone-b"], service := mockService createFailsInZoneB,
            ssh_public_key := some "ssh-rsa AAAA" } {} =
        (some (),
          { calls := [
              Call.CreateServer (mockCreateRequest "zone-a"),
              Call.WaitForServerState { UUID := "zone-a", DesiredState := "started", Timeout := 300 },
              Call.CreateServer (mockCreateRequest "zone-b")],
            ui := [
              UiLine.Say "Creating server \"prefix\" ...",
              UiLine.Say "Waiting for server \"server-zone-a\" to enter the \"started\" state ...",
              UiLine.Say "Server \"server-zone-a\" is now in \"started\" state",
              UiLine.Say "Creating server \"prefix\" ...",
              UiLine.Error "error creating server instance: insufficient capacity"],
            log := [] }) :=
  ⟨rfl, by decide⟩

end Upcloud
